import Mathlib

/-!
Shallow embedding of `src/main.py` (a Flask service backed by MySQL).

The repository's observable behaviour is a single request handler
(`hello_world`) built on four database operations: `get_db_connection`,
`init_database`, `populate_facts` and `get_random_fact`.  We model the
database as its `random_facts` table (does it exist, and the list of values
of its `fact` column), and the nondeterminism of the outside world (driver
errors, `ORDER BY RAND()`) as explicit oracle parameters: each operation
that may raise a `mysql.connector.Error` takes an `Option String` that is
`some msg` when the driver fails at that step with `str(e) = msg`.
Python exceptions are `Except String`; a Python function that returns
normally while also mutating the database is a pair
`Except String Unit × DB` (error-or-unit, final table state).  Python
truthiness on strings and on `Optional[str]` (`if db_init_error:`,
`if random_fact:`, `if version:`) is the boolean `truthy` below: `None`
and the empty string are falsy.
-/

namespace HelloWorld

/-- Python truthiness of an `Optional[str]` value: `None` and `""` are
falsy, every other string is truthy. -/
def truthy : Option String → Bool
  | none => false
  | some s => s != ""

/-- The process environment, restricted to the variables `main.py` reads
for the database.  `none` means the variable is unset. -/
structure Env where
  dbHost : Option String
  dbPort : Option String
  dbName : Option String
  dbUser : Option String
  dbPassword : Option String
deriving DecidableEq

/-- The keyword arguments `get_db_connection` passes to
`mysql.connector.connect` (the port is passed through `int(...)`; we keep
the string read from the environment). -/
structure ConnParams where
  host : String
  port : String
  database : String
  user : String
  password : String
  connectionTimeout : Nat
  autocommit : Bool
  raiseOnWarnings : Bool
deriving DecidableEq

/-- `get_db_connection`, configuration part: each variable is read with
`os.getenv(var, default)`, and the connect call fixes
`connection_timeout=10`, `autocommit=False`, `raise_on_warnings=False`. -/
def connParams (env : Env) : ConnParams :=
  { host := env.dbHost.getD "localhost"
    port := env.dbPort.getD "3306"
    database := env.dbName.getD "hello_world"
    user := env.dbUser.getD "root"
    password := env.dbPassword.getD "root"
    connectionTimeout := 10
    autocommit := false
    raiseOnWarnings := false }

/-- `get_db_connection`: calls the driver on `connParams env`; on
`mysql.connector.Error` it logs and re-raises (`raise`, with the comment
"Raise exception instead of sys.exit() so it can be caught"), so the
driver's error propagates unchanged to the caller and the process is not
terminated.  The driver is a parameter producing either a connection
(modelled as `Unit`) or an error message. -/
def get_db_connection (env : Env) (driver : ConnParams → Except String Unit) :
    Except String Unit :=
  driver (connParams env)

/-- The `random_facts` table: whether `CREATE TABLE` has run, and the
`fact` column of its rows in insertion order (ids and timestamps are
auto-assigned and never read by the program). -/
structure DB where
  tableExists : Bool
  rows : List String
deriving DecidableEq

/-- The error the driver raises when a statement touches the missing
`random_facts` table (its exact text is irrelevant to the program, which
only ever calls `str(e)` on it). -/
def tableMissing : String := "table random_facts does not exist"

/-- Driver outcomes for one run of `populate_facts`: failure of its
`get_db_connection()` call, of the `SELECT COUNT(*)` statement, and of the
`executemany`/`commit` batch insert. -/
structure SeedOracle where
  connErr : Option String
  countErr : Option String
  insertErr : Option String
deriving DecidableEq

/-- Driver outcomes for one run of `get_random_fact`: failure of its
`get_db_connection()` call, failure of the `SELECT ... ORDER BY RAND()
LIMIT 1` statement, and the index of the row the randomized ordering puts
first. -/
structure ReadOracle where
  connErr : Option String
  queryErr : Option String
  pick : Nat
deriving DecidableEq

/-- Driver outcomes for one run of `init_database`: failure of its
`get_db_connection()` call, failure of `CREATE TABLE IF NOT EXISTS` or the
commit after it, and the oracle for the inner `populate_facts()` call
(which opens its own connection). -/
structure InitOracle where
  connErr : Option String
  createErr : Option String
  seed : SeedOracle
deriving DecidableEq

/-- The fifteen literal fact strings of `populate_facts` (`facts` in the
source), in source order. -/
def facts : List String :=
  [ "The first computer bug was an actual bug - a moth found in the Harvard Mark II computer in 1947.",
    "A group of flamingos is called a 'flamboyance'.",
    "Octopuses have three hearts and blue blood.",
    "Honey never spoils - archaeologists have found 3000-year-old honey that's still edible.",
    "Bananas are berries, but strawberries aren't.",
    "A day on Venus is longer than its year.",
    "Sharks have been around longer than trees.",
    "Wombat poop is cube-shaped.",
    "A single cloud can weigh more than a million pounds.",
    "The human brain uses about 20% of the body's total energy.",
    "Dolphins have names for each other.",
    "A group of owls is called a 'parliament'.",
    "The first email was sent in 1971.",
    "There are more possible games of chess than atoms in the observable universe.",
    "A 'jiffy' is an actual unit of time - 1/100th of a second." ]

/-- `populate_facts`: open a connection, read `SELECT COUNT(*) FROM
random_facts`; if the count is positive, return without touching the
table; otherwise batch-insert the fifteen `facts` and commit.  On any
`mysql.connector.Error` the code does `conn.rollback()` (when a connection
exists) and re-raises, so with `autocommit=False` no uncommitted insert
survives: every error path leaves the table exactly as it was. -/
def populate_facts (db : DB) (o : SeedOracle) : Except String Unit × DB :=
  match o.connErr with
  | some m => (Except.error m, db)
  | none =>
    if !db.tableExists then (Except.error tableMissing, db)
    else
      match o.countErr with
      | some m => (Except.error m, db)
      | none =>
        if db.rows.length > 0 then (Except.ok (), db)
        else
          match o.insertErr with
          | some m => (Except.error m, db)
          | none => (Except.ok (), { db with rows := db.rows ++ facts })

/-- `init_database`: open a connection, run `CREATE TABLE IF NOT EXISTS
random_facts (...)` and commit; then call `populate_facts()` inside an
inner `try/except Exception` that logs and swallows any failure ("Don't
fail initialization if fact population fails").  On a
`mysql.connector.Error` of its own steps it rolls back (when a connection
exists) and re-raises. -/
def init_database (db : DB) (o : InitOracle) : Except String Unit × DB :=
  match o.connErr with
  | some m => (Except.error m, db)
  | none =>
    match o.createErr with
    | some m => (Except.error m, db)
    | none =>
      (Except.ok (), (populate_facts { db with tableExists := true } o.seed).2)

/-- `get_random_fact` before its `except` clauses: open a connection, run
`SELECT fact FROM random_facts ORDER BY RAND() LIMIT 1`, `fetchone()`.  A
fetched row `(fact,)` is a non-empty tuple, hence truthy, so `result[0]`
is returned even when the fact is the empty string; `fetchone()` on an
empty table yields `None`. -/
def get_random_fact_attempt (db : DB) (o : ReadOracle) :
    Except String (Option String) :=
  match o.connErr with
  | some m => Except.error m
  | none =>
    if !db.tableExists then Except.error tableMissing
    else
      match o.queryErr with
      | some m => Except.error m
      | none => Except.ok (db.rows[o.pick % db.rows.length]?)

/-- `get_random_fact`: the attempt above with every `mysql.connector.Error`
and every other exception caught and mapped to `None`.  The function is
total: it never propagates an error to its caller. -/
def get_random_fact (db : DB) (o : ReadOracle) : Option String :=
  match get_random_fact_attempt db o with
  | Except.ok r => r
  | Except.error _ => none

/-- The `"database"` object of the response body. -/
structure DatabaseInfo where
  host : String
  name : String
deriving DecidableEq

/-- The JSON body `hello_world` assembles.  An `Option` field is `none`
exactly when the key is absent from the dict. -/
structure Response where
  message : String
  database : DatabaseInfo
  version : Option String
  error : Option String
  status : String
  random_fact : Option String
deriving DecidableEq

/-- The placeholder `random_fact` used when initialization succeeded but
no fact was retrieved. -/
def placeholder : String :=
  "No facts found in database. Please run the installation script to populate facts."

/-- The text prepended to `str(e)` in the response's `"error"` field. -/
def initErrorHeader : String := "Database initialization failed: "

/-- The response-assembly tail of `hello_world` (lines 272-298 of
`main.py`), as a function of the values its branches test.  Note every
test is Python truthiness: `if version:`, `if db_init_error:`,
`if random_fact:`, `if not db_init_error:`. -/
def response_of (db_host db_name : String)
    (version db_init_error random_fact : Option String) : Response :=
  let base : Response :=
    { message := "Hello, World!"
      database := { host := db_host, name := db_name }
      version := none, error := none, status := "", random_fact := none }
  let r1 := if truthy version then { base with version := version } else base
  let r2 :=
    if truthy db_init_error then
      { r1 with error := some (initErrorHeader ++ db_init_error.getD "")
                status := "degraded" }
    else { r1 with status := "healthy" }
  if truthy random_fact then { r2 with random_fact := random_fact }
  else if !truthy db_init_error then { r2 with random_fact := some placeholder }
  else r2

/-- One incoming `GET /` request: the process environment, the database
state it meets, the driver oracles of the `init_database` and
`get_random_fact` calls, and the stripped contents of the `VERSION` file
(`none` when the file is absent or unreadable). -/
structure Request where
  env : Env
  db : DB
  initO : InitOracle
  readO : ReadOracle
  version : Option String
deriving DecidableEq

/-- `str(e)` of the exception `init_database` raised, or `None`. -/
def errOf : Except String Unit → Option String
  | Except.ok _ => none
  | Except.error m => some m

/-- `hello_world`: read `DB_HOST`/`DB_NAME`, attempt `init_database()`
recording `str(e)` on failure, attempt `get_random_fact()` on the
resulting database swallowing any failure, read the `VERSION` file, then
assemble the body and return it with HTTP status 200.  (The outer
`except` returning 500 guards only the assembly itself, which in this
model is total, so the handler always reaches the `return ..., 200`.) -/
def hello_world (r : Request) : Response × Nat :=
  (response_of (r.env.dbHost.getD "localhost") (r.env.dbName.getD "hello_world")
      r.version (errOf (init_database r.db r.initO).1)
      (get_random_fact (init_database r.db r.initO).2 r.readO),
    200)

/-- Closed form of `response_of`: each field as a function of the three
truthiness tests the assembly performs. -/
theorem response_of_eq (hd hn : String) (v e f : Option String) :
    response_of hd hn v e f =
      { message := "Hello, World!"
        database := ⟨hd, hn⟩
        version := if truthy v then v else none
        error := if truthy e then some (initErrorHeader ++ e.getD "") else none
        status := if truthy e then "degraded" else "healthy"
        random_fact :=
          if truthy f then f
          else if truthy e then none else some placeholder } := by
  simp only [response_of]
  by_cases hv : truthy v <;> by_cases he : truthy e <;> by_cases hf : truthy f <;>
    simp [hv, he, hf]

/-- `initErrorHeader ++ m` is never the empty string. -/
theorem initErrorHeader_append_ne_empty (m : String) : initErrorHeader ++ m ≠ "" := by
  intro h
  have hlen : (initErrorHeader ++ m).length = ("" : String).length := by rw [h]
  rw [String.length_append] at hlen
  have hh : initErrorHeader.length = 32 := by decide
  have h0 : ("" : String).length = 0 := by decide
  omega

/-- C8: the connection provider reads its configuration from the
environment with defaults `DB_HOST="localhost"`, `DB_PORT="3306"`,
`DB_NAME="hello_world"`, `DB_USER="root"`, `DB_PASSWORD="root"`, fixes a
10-second connect timeout, and on a driver failure propagates the
underlying error to its caller instead of terminating the process. -/
theorem C8_connection_config_and_failure (env : Env) (m : String) :
    connParams ⟨none, none, none, none, none⟩ =
      ⟨"localhost", "3306", "hello_world", "root", "root", 10, false, false⟩ ∧
    (connParams env).connectionTimeout = 10 ∧
    get_db_connection env (fun _ => Except.error m) = Except.error m :=
  ⟨rfl, rfl, rfl⟩

/-- C3: the seeder is count-gated: whenever the `random_facts` table is
non-empty, `populate_facts` leaves the table unchanged on every execution
path, and when its connection and count query succeed it returns normally
without inserting anything. -/
theorem C3_seeder_count_gated (db : DB) (o : SeedOracle) (h : db.rows ≠ []) :
    (populate_facts db o).2 = db ∧
    (db.tableExists = true → o.connErr = none → o.countErr = none →
      populate_facts db o = (Except.ok (), db)) := by
  have hlen : 0 < db.rows.length := List.length_pos.mpr h
  obtain ⟨t, rows⟩ := db
  obtain ⟨c, cn, i⟩ := o
  constructor
  · cases c with
    | some m => rfl
    | none =>
      cases t with
      | false => rfl
      | true =>
        cases cn with
        | some m => rfl
        | none => simp only [populate_facts] at *; rw [if_neg (by simp), if_pos hlen]
  · intro ht hc hcn
    subst ht; subst hc; subst hcn
    simp only [populate_facts]
    rw [if_neg (by simp), if_pos hlen]

/-- C3 witness: a concrete non-empty table with a failing insert oracle is
left untouched by the seeder. -/
theorem C3_seeder_count_gated_witness :
    (["already here"] : List String) ≠ [] ∧
    (populate_facts ⟨true, ["already here"]⟩ ⟨none, none, some "disk full"⟩).2 =
      ⟨true, ["already here"]⟩ :=
  ⟨by decide, (C3_seeder_count_gated ⟨true, ["already here"]⟩
      ⟨none, none, some "disk full"⟩ (by decide)).1⟩

/-- C10: seeding is atomic: when the batch insert into an empty table
fails, `populate_facts` re-raises after the rollback and the table is
exactly as before (still empty); more generally every failing execution of
`populate_facts` leaves the table unchanged, so a committed proper subset
of the seed facts is never left behind. -/
theorem C10_seed_rollback_atomic (db : DB) (o : SeedOracle) (m : String)
    (hrows : db.rows = []) (htab : db.tableExists = true)
    (h1 : o.connErr = none) (h2 : o.countErr = none)
    (hins : o.insertErr = some m) :
    populate_facts db o = (Except.error m, db) ∧
    ∀ (db2 : DB) (o2 : SeedOracle) (m2 : String),
      (populate_facts db2 o2).1 = Except.error m2 → (populate_facts db2 o2).2 = db2 := by
  constructor
  · obtain ⟨t, rows⟩ := db
    obtain ⟨c, cn, i⟩ := o
    simp only at hrows htab h1 h2 hins
    subst hrows; subst htab; subst h1; subst h2; subst hins
    rfl
  · intro db2 o2 m2 hfail
    obtain ⟨t, rows⟩ := db2
    obtain ⟨c, cn, i⟩ := o2
    cases c with
    | some m3 => rfl
    | none =>
      cases t with
      | false => rfl
      | true =>
        cases cn with
        | some m3 => rfl
        | none =>
          simp only [populate_facts] at hfail ⊢
          by_cases hlen : 0 < rows.length
          · rw [if_neg (by simp), if_pos hlen]
          · rw [if_neg (by simp), if_neg hlen] at hfail ⊢
            cases i with
            | some m3 => rfl
            | none => exact absurd hfail (by simp)

/-- C10 witness: an insert failure on a concrete empty table re-raises and
leaves the table empty. -/
theorem C10_seed_rollback_atomic_witness :
    populate_facts ⟨true, []⟩ ⟨none, none, some "deadlock"⟩ =
      (Except.error "deadlock", ⟨true, []⟩) :=
  (C10_seed_rollback_atomic ⟨true, []⟩ ⟨none, none, some "deadlock"⟩ "deadlock"
    rfl rfl rfl rfl rfl).1

/-- C2: `get_random_fact` is total towards its caller: it returns the
no-fact sentinel `none` ("no fact") whenever the attempt raised any
database error and whenever the table is empty, and on a non-empty table
with a working database it returns the fact text of one of the table's
rows. -/
theorem C2_read_never_raises (db : DB) (o : ReadOracle) :
    (get_random_fact db o = none ∨ ∃ f ∈ db.rows, get_random_fact db o = some f) ∧
    (db.rows = [] → get_random_fact db o = none) ∧
    (∀ m, get_random_fact_attempt db o = Except.error m → get_random_fact db o = none) ∧
    (db.tableExists = true → o.connErr = none → o.queryErr = none → db.rows ≠ [] →
      ∃ f ∈ db.rows, get_random_fact db o = some f) := by
  obtain ⟨t, rows⟩ := db
  obtain ⟨c, q, k⟩ := o
  cases c with
  | some m => simp [get_random_fact, get_random_fact_attempt]
  | none =>
    cases t with
    | false => simp [get_random_fact, get_random_fact_attempt]
    | true =>
      cases q with
      | some m => simp [get_random_fact, get_random_fact_attempt]
      | none =>
        have hval : get_random_fact ⟨true, rows⟩ ⟨none, none, k⟩ =
            rows[k % rows.length]? := rfl
        refine ⟨?_, ?_, ?_, ?_⟩
        · rw [hval]
          cases hg : rows[k % rows.length]? with
          | none => exact Or.inl rfl
          | some f => exact Or.inr ⟨f, List.getElem?_mem hg, rfl⟩
        · intro h; subst h; simp [hval]
        · intro m h; exact absurd h (by simp [get_random_fact_attempt])
        · intro _ _ _ hne
          have hlen : 0 < rows.length := List.length_pos.mpr hne
          have hk : k % rows.length < rows.length := Nat.mod_lt _ hlen
          refine ⟨rows[k % rows.length], List.getElem_mem hk, ?_⟩
          rw [hval, List.getElem?_eq_getElem hk]

/-- C4: seeding an empty table batch-inserts exactly the fixed ordered
list of 15 literal fact strings and returns committed (`Except.ok`), and
reading the table seeded this way yields a member of that 15-element
set. -/
theorem C4_seed_fifteen_and_read_member (db : DB) (o : SeedOracle) (ro : ReadOracle)
    (hrows : db.rows = []) (htab : db.tableExists = true)
    (h1 : o.connErr = none) (h2 : o.countErr = none) (h3 : o.insertErr = none)
    (h4 : ro.connErr = none) (h5 : ro.queryErr = none) :
    facts.length = 15 ∧
    populate_facts db o = (Except.ok (), { db with rows := db.rows ++ facts }) ∧
    ∃ f ∈ facts, get_random_fact (populate_facts db o).2 ro = some f := by
  obtain ⟨t, rows⟩ := db
  obtain ⟨c, cn, i⟩ := o
  obtain ⟨rc, rq, k⟩ := ro
  simp only at hrows htab h1 h2 h3 h4 h5
  subst hrows; subst htab; subst h1; subst h2; subst h3; subst h4; subst h5
  have hlen : 0 < facts.length := by decide
  have hk : k % facts.length < facts.length := Nat.mod_lt _ hlen
  refine ⟨by decide, rfl, facts[k % facts.length], List.getElem_mem hk, ?_⟩
  show facts[k % facts.length]? = some facts[k % facts.length]
  exact List.getElem?_eq_getElem hk

/-- C4 witness: seeding a concrete empty table yields the 15 facts and a
subsequent read returns one of them. -/
theorem C4_seed_fifteen_and_read_member_witness :
    facts.length = 15 ∧
    populate_facts ⟨true, []⟩ ⟨none, none, none⟩ =
      (Except.ok (), ⟨true, ([] : List String) ++ facts⟩) ∧
    ∃ f ∈ facts,
      get_random_fact (populate_facts ⟨true, []⟩ ⟨none, none, none⟩).2
        ⟨none, none, 7⟩ = some f :=
  C4_seed_fifteen_and_read_member ⟨true, []⟩ ⟨none, none, none⟩ ⟨none, none, 7⟩
    rfl rfl rfl rfl rfl rfl rfl

/-- C6: a failing seeder does not fail initialization: when the connection
and the schema creation succeed but the inner `populate_facts()` call
raises, `init_database` still returns normally and the request is reported
healthy. -/
theorem C6_seed_failure_not_fatal (r : Request) (m : String)
    (hc : r.initO.connErr = none) (hcr : r.initO.createErr = none)
    (_hseed : (populate_facts { r.db with tableExists := true } r.initO.seed).1 =
      Except.error m) :
    (init_database r.db r.initO).1 = Except.ok () ∧
    (hello_world r).1.status = "healthy" := by
  have hinit : (init_database r.db r.initO).1 = Except.ok () := by
    simp [init_database, hc, hcr]
  exact ⟨hinit, by simp [hello_world, response_of_eq, hinit, errOf, truthy]⟩

/-- C6 witness: a concrete request whose batch insert raises is still
reported healthy. -/
theorem C6_seed_failure_not_fatal_witness :
    (init_database ⟨false, []⟩
        ⟨none, none, ⟨none, none, some "insert failed"⟩⟩).1 = Except.ok () ∧
    (hello_world ⟨⟨none, none, none, none, none⟩, ⟨false, []⟩,
        ⟨none, none, ⟨none, none, some "insert failed"⟩⟩,
        ⟨none, none, 0⟩, none⟩).1.status = "healthy" :=
  C6_seed_failure_not_fatal
    ⟨⟨none, none, none, none, none⟩, ⟨false, []⟩,
      ⟨none, none, ⟨none, none, some "insert failed"⟩⟩, ⟨none, none, 0⟩, none⟩
    "insert failed" rfl rfl rfl

/-- C7: when a database error occurs in `init_database`'s own steps
(connection or schema creation), the operation leaves the table unchanged
(rollback) and re-raises the error, and the request handler catches it and
still completes with HTTP 200. -/
theorem C7_init_error_rollback_reraise (r : Request) (m : String)
    (h : r.initO.connErr = some m ∨
      (r.initO.connErr = none ∧ r.initO.createErr = some m)) :
    init_database r.db r.initO = (Except.error m, r.db) ∧
    (hello_world r).2 = 200 := by
  refine ⟨?_, rfl⟩
  rcases h with hc | ⟨hc, hcr⟩
  · simp [init_database, hc]
  · simp [init_database, hc, hcr]

/-- C7 witness: a concrete connection failure in `init_database` re-raises,
leaves the table unchanged, and the handler still answers 200. -/
theorem C7_init_error_rollback_reraise_witness :
    init_database ⟨true, ["kept"]⟩ ⟨some "connection refused", none, ⟨none, none, none⟩⟩ =
      (Except.error "connection refused", ⟨true, ["kept"]⟩) ∧
    (hello_world ⟨⟨none, none, none, none, none⟩, ⟨true, ["kept"]⟩,
        ⟨some "connection refused", none, ⟨none, none, none⟩⟩,
        ⟨none, none, 0⟩, none⟩).2 = 200 :=
  C7_init_error_rollback_reraise
    ⟨⟨none, none, none, none, none⟩, ⟨true, ["kept"]⟩,
      ⟨some "connection refused", none, ⟨none, none, none⟩⟩, ⟨none, none, 0⟩, none⟩
    "connection refused" (Or.inl rfl)

/-- An option that Python truthiness accepts is not `None`. -/
theorem truthy_ne_none {x : Option String} (h : truthy x = true) : x ≠ none := by
  cases x with
  | none => simp [truthy] at h
  | some s => simp

/-- C1 (amended): the handler answers HTTP 200 on every request, and when
`init_database` fails with a NON-EMPTY error message the body's status is
`"degraded"` and its error field carries a non-empty string.  (A failure
whose `str(e)` is the empty string is reported as healthy, because the
code tests `if db_init_error:`, which is false for `""`; see the
counterexample.) -/
theorem C1_http200_and_degraded_body (r : Request) (m : String)
    (hfail : (init_database r.db r.initO).1 = Except.error m) (hm : m ≠ "") :
    (hello_world r).2 = 200 ∧
    (hello_world r).1.status = "degraded" ∧
    (hello_world r).1.error = some (initErrorHeader ++ m) ∧
    initErrorHeader ++ m ≠ "" := by
  refine ⟨rfl, ?_, ?_, initErrorHeader_append_ne_empty m⟩
  · simp [hello_world, response_of_eq, hfail, errOf, truthy, hm]
  · simp [hello_world, response_of_eq, hfail, errOf, truthy, hm]

/-- C1 witness: a concrete request on which every database operation fails
with message "boom" yields 200, a degraded status and a non-empty error. -/
theorem C1_http200_and_degraded_body_witness :
    (hello_world ⟨⟨none, none, none, none, none⟩, ⟨false, []⟩,
        ⟨some "boom", none, ⟨none, none, none⟩⟩, ⟨some "boom", none, 0⟩,
        none⟩).2 = 200 ∧
    (hello_world ⟨⟨none, none, none, none, none⟩, ⟨false, []⟩,
        ⟨some "boom", none, ⟨none, none, none⟩⟩, ⟨some "boom", none, 0⟩,
        none⟩).1.status = "degraded" ∧
    (hello_world ⟨⟨none, none, none, none, none⟩, ⟨false, []⟩,
        ⟨some "boom", none, ⟨none, none, none⟩⟩, ⟨some "boom", none, 0⟩,
        none⟩).1.error = some (initErrorHeader ++ "boom") ∧
    initErrorHeader ++ "boom" ≠ "" :=
  C1_http200_and_degraded_body
    ⟨⟨none, none, none, none, none⟩, ⟨false, []⟩,
      ⟨some "boom", none, ⟨none, none, none⟩⟩, ⟨some "boom", none, 0⟩, none⟩
    "boom" rfl (by decide)

/-- C1 counterexample: when every database operation fails with an
exception whose `str(e)` is the empty string, the body's status is
`"healthy"` and no error field is present, contradicting the claim's
degraded-case clause (the handler does return 200). -/
theorem C1_counterexample :
    (init_database ⟨false, []⟩ ⟨some "", none, ⟨none, none, none⟩⟩).1 =
      Except.error "" ∧
    (hello_world ⟨⟨none, none, none, none, none⟩, ⟨false, []⟩,
        ⟨some "", none, ⟨none, none, none⟩⟩, ⟨some "", none, 0⟩,
        none⟩).1.status = "healthy" ∧
    (hello_world ⟨⟨none, none, none, none, none⟩, ⟨false, []⟩,
        ⟨some "", none, ⟨none, none, none⟩⟩, ⟨some "", none, 0⟩,
        none⟩).1.error = none := by
  refine ⟨rfl, by decide, by decide⟩

/-- C5 (amended): every assembled payload carries the fixed greeting and
the database host and name resolved from the environment; the status is
`"healthy"` when schema initialization succeeded and `"degraded"`
(carrying the error text) when it failed with a NON-EMPTY message — a
failure whose message is empty is reported healthy, see the
counterexample — and the error field is present exactly when the status is
degraded. -/
theorem C5_payload_fields (r : Request) :
    (hello_world r).1.message = "Hello, World!" ∧
    (hello_world r).1.database =
      ⟨r.env.dbHost.getD "localhost", r.env.dbName.getD "hello_world"⟩ ∧
    ((init_database r.db r.initO).1 = Except.ok () →
      (hello_world r).1.status = "healthy" ∧ (hello_world r).1.error = none) ∧
    (∀ m, m ≠ "" → (init_database r.db r.initO).1 = Except.error m →
      (hello_world r).1.status = "degraded" ∧
      (hello_world r).1.error = some (initErrorHeader ++ m)) ∧
    ((hello_world r).1.error.isSome = true ↔ (hello_world r).1.status = "degraded") := by
  refine ⟨by simp [hello_world, response_of_eq],
    by simp [hello_world, response_of_eq], ?_, ?_, ?_⟩
  · intro hok
    have hnone : errOf (init_database r.db r.initO).1 = none := by rw [hok]; rfl
    constructor
    · simp [hello_world, response_of_eq, hnone, truthy]
    · simp [hello_world, response_of_eq, hnone, truthy]
  · intro m hm hfail
    constructor
    · simp [hello_world, response_of_eq, hfail, errOf, truthy, hm]
    · simp [hello_world, response_of_eq, hfail, errOf, truthy, hm]
  · by_cases he : truthy (errOf (init_database r.db r.initO).1)
    · simp [hello_world, response_of_eq, he]
    · simp [hello_world, response_of_eq, he]

/-- C5 counterexample: a schema-creation failure whose message is the
empty string makes `init_database` raise, yet the payload's status is
`"healthy"`, contradicting "status equals degraded otherwise". -/
theorem C5_counterexample :
    (init_database ⟨false, []⟩ ⟨none, some "", ⟨none, none, none⟩⟩).1 =
      Except.error "" ∧
    (hello_world ⟨⟨none, none, none, none, none⟩, ⟨false, []⟩,
        ⟨none, some "", ⟨none, none, none⟩⟩, ⟨some "x", none, 0⟩,
        none⟩).1.status = "healthy" := by
  refine ⟨rfl, by decide⟩

/-- C9 (amended): whenever the status is `"healthy"`, the `random_fact`
field is present, holding the retrieved fact when one was retrieved and
truthy, and the fixed placeholder message otherwise; `random_fact` is
absent exactly when the response is degraded and no TRUTHY fact was
retrieved — a retrieved empty-string fact is dropped like a missing one
(`if random_fact:`), see the counterexample. -/
theorem C9_random_fact_presence (r : Request) :
    ((hello_world r).1.status = "healthy" →
      (hello_world r).1.random_fact =
        (if truthy (get_random_fact (init_database r.db r.initO).2 r.readO) then
          get_random_fact (init_database r.db r.initO).2 r.readO
        else some placeholder) ∧
      (hello_world r).1.random_fact.isSome = true) ∧
    ((hello_world r).1.random_fact = none ↔
      ((hello_world r).1.status = "degraded" ∧
        truthy (get_random_fact (init_database r.db r.initO).2 r.readO) = false)) := by
  by_cases he : truthy (errOf (init_database r.db r.initO).1) <;>
    by_cases hf : truthy (get_random_fact (init_database r.db r.initO).2 r.readO)
  · constructor
    · intro hs
      have : ("degraded" : String) = "healthy" := by
        rw [← hs]; simp [hello_world, response_of_eq, he]
      exact absurd this (by decide)
    · simp [hello_world, response_of_eq, he, hf, truthy_ne_none hf]
  · constructor
    · intro hs
      have : ("degraded" : String) = "healthy" := by
        rw [← hs]; simp [hello_world, response_of_eq, he]
      exact absurd this (by decide)
    · simp [hello_world, response_of_eq, he, hf]
  · constructor
    · intro _
      constructor
      · simp [hello_world, response_of_eq, he, hf]
      · simp [hello_world, response_of_eq, he, hf,
          Option.isSome_iff_ne_none, truthy_ne_none hf]
    · simp [hello_world, response_of_eq, he, hf, truthy_ne_none hf]
  · constructor
    · intro _
      constructor
      · simp [hello_world, response_of_eq, he, hf]
      · simp [hello_world, response_of_eq, he, hf]
    · constructor
      · intro hnone
        have : (some placeholder : Option String) = none := by
          rw [← hnone]; simp [hello_world, response_of_eq, he, hf]
        exact absurd this (by simp)
      · intro ⟨hs, _⟩
        have : ("healthy" : String) = "degraded" := by
          rw [← hs]; simp [hello_world, response_of_eq, he]
        exact absurd this (by decide)

/-- C9 counterexample: with a degraded response and a retrieved
empty-string fact, `random_fact` is absent although a fact WAS retrieved,
so absence is not equivalent to "degraded and no fact retrieved". -/
theorem C9_counterexample :
    get_random_fact ⟨true, [""]⟩ ⟨none, none, 0⟩ = some "" ∧
    (hello_world ⟨⟨none, none, none, none, none⟩, ⟨true, [""]⟩,
        ⟨some "down", none, ⟨none, none, none⟩⟩, ⟨none, none, 0⟩,
        none⟩).1.status = "degraded" ∧
    (hello_world ⟨⟨none, none, none, none, none⟩, ⟨true, [""]⟩,
        ⟨some "down", none, ⟨none, none, none⟩⟩, ⟨none, none, 0⟩,
        none⟩).1.random_fact = none := by
  refine ⟨rfl, by decide, by decide⟩

end HelloWorld
